import Mathlib

/-!
Shallow embedding of the Pong client, `src/client/src/App.jsx`.

JavaScript values are modelled by `JSValue`. Object property keys keep the
representation they were written with (`JSKey`: a numeric literal key or a
string key), while property lookup coerces every key to its decimal string,
exactly as JavaScript ToPropertyKey does — so `{1: v}` and `{"1": v}` hold
the same property. Later entries of an object literal override earlier ones,
which the fold in `lookupKey` reproduces.

Member access on `null`/`undefined` throws in JavaScript, so the naked
member accesses of the source are modelled in `Except Unit` (`jsGetProp`);
optional chaining `?.` (`jsOptChain`) and nullish coalescing `??`
(`jsNullish`) are total. Numbers are modelled by `Rat`; every numeric
literal appearing in the client is exactly representable.
-/

inductive JSKey where
  | knum : Int → JSKey
  | kstr : String → JSKey
deriving DecidableEq, Repr

/-- JavaScript ToPropertyKey: a numeric object key denotes the same property
as its decimal string form. -/
def JSKey.propString : JSKey → String
  | .knum n => toString n
  | .kstr s => s

inductive JSValue where
  | null : JSValue
  | undefined : JSValue
  | num : Rat → JSValue
  | str : String → JSValue
  | bool : Bool → JSValue
  | obj : List (JSKey × JSValue) → JSValue

/-- Property lookup in an object's entry list: every key is coerced to its
property string, later entries override earlier ones (JavaScript literal /
JSON duplicate-key semantics), absent keys give `undefined`. -/
def lookupKey (fs : List (JSKey × JSValue)) (k : String) : JSValue :=
  fs.foldl (fun acc kv => if kv.1.propString = k then kv.2 else acc) .undefined

/-- `v == null` in JavaScript (loose): true exactly for `null` and
`undefined`. -/
def isLooseNull : JSValue → Bool
  | .null => true
  | .undefined => true
  | _ => false

/-- The nullish-coalescing operator `a ?? b`. -/
def jsNullish (a b : JSValue) : JSValue :=
  if isLooseNull a then b else a

/-- Optional chaining `v?.k`: `undefined` on a nullish base, property lookup
on an object, `undefined` on other primitives (none of the property names
used by the client collides with a primitive's built-in property). -/
def jsOptChain : JSValue → String → JSValue
  | .null, _ => .undefined
  | .undefined, _ => .undefined
  | .obj fs, k => lookupKey fs k
  | _, _ => .undefined

/-- Naked member access `v.k` / `v[k]`: throws (`Except.error`) on a nullish
base, otherwise behaves like `jsOptChain`. -/
def jsGetProp : JSValue → String → Except Unit JSValue
  | .null, _ => .error ()
  | .undefined, _ => .error ()
  | .obj fs, k => .ok (lookupKey fs k)
  | _, _ => .ok .undefined

/-- `const defaultState = ...`, App.jsx lines 5-15. The `players`/`score`
keys are written as numeric literals `1:`/`2:` exactly as in the source. -/
def defaultState : JSValue :=
  .obj [
    (.kstr "players", .obj [
      (.knum 1, .obj [(.kstr "y", .num ((500 - 80) / 2))]),
      (.knum 2, .obj [(.kstr "y", .num ((500 - 80) / 2))])]),
    (.kstr "ball", .obj [(.kstr "x", .num (800 / 2)), (.kstr "y", .num (500 / 2))]),
    (.kstr "score", .obj [(.knum 1, .num 0), (.knum 2, .num 0)]),
    (.kstr "bounds", .obj [(.kstr "width", .num 800), (.kstr "height", .num 500)]),
    (.kstr "paddle", .obj [(.kstr "w", .num 12), (.kstr "h", .num 80)]),
    (.kstr "ballRadius", .num 8)]

/-- `resolvePlayerY` from `normaliseState`, App.jsx lines 22-27. The call
sites pass the numeric keys `1` and `2`; `players[key]` coerces the number
with `toString`, which is the same string `String(key)` produces for the
explicit string-key fallback. -/
def resolvePlayerY (players : JSValue) (key : Int) : Except Unit JSValue := do
  let pk ← jsGetProp players (toString key)
  if !isLooseNull (jsOptChain pk "y") then
    jsGetProp pk "y"
  else
    let asString := toString key
    let pks ← jsGetProp players asString
    if !isLooseNull (jsOptChain pks "y") then
      jsGetProp pks "y"
    else do
      let dplayers ← jsGetProp defaultState "players"
      let dpk ← jsGetProp dplayers (toString key)
      jsGetProp dpk "y"

/-- `resolveScore` from `normaliseState`, App.jsx lines 29-34. -/
def resolveScore (score : JSValue) (key : Int) : Except Unit JSValue := do
  let sk ← jsGetProp score (toString key)
  if !isLooseNull sk then
    pure sk
  else
    let asString := toString key
    let sks ← jsGetProp score asString
    if !isLooseNull sks then
      pure sks
    else do
      let dscore ← jsGetProp defaultState "score"
      jsGetProp dscore (toString key)

/-- `function normaliseState(incoming)`, App.jsx lines 17-59. Each repeated
pure member access of the source (for example `source.ball` for both `x`
and `y`) is bound once; the accesses are effect-free so the value is the
same. -/
def normaliseState (incoming : JSValue) : Except Unit JSValue := do
  let source := jsNullish incoming (.obj [])
  let players := jsNullish (← jsGetProp source "players") (.obj [])
  let score := jsNullish (← jsGetProp source "score") (.obj [])
  let p1y ← resolvePlayerY players 1
  let p2y ← resolvePlayerY players 2
  let ball ← jsGetProp source "ball"
  let dball ← jsGetProp defaultState "ball"
  let bx := jsNullish (jsOptChain ball "x") (← jsGetProp dball "x")
  let bY := jsNullish (jsOptChain ball "y") (← jsGetProp dball "y")
  let s1 ← resolveScore score 1
  let s2 ← resolveScore score 2
  let bounds ← jsGetProp source "bounds"
  let dbounds ← jsGetProp defaultState "bounds"
  let bw := jsNullish (jsOptChain bounds "width") (← jsGetProp dbounds "width")
  let bh := jsNullish (jsOptChain bounds "height") (← jsGetProp dbounds "height")
  let paddle ← jsGetProp source "paddle"
  let dpaddle ← jsGetProp defaultState "paddle"
  let pw := jsNullish (jsOptChain paddle "w") (← jsGetProp dpaddle "w")
  let ph := jsNullish (jsOptChain paddle "h") (← jsGetProp dpaddle "h")
  let br := jsNullish (← jsGetProp source "ballRadius") (← jsGetProp defaultState "ballRadius")
  pure (.obj [
    (.kstr "players", .obj [
      (.knum 1, .obj [(.kstr "y", p1y)]),
      (.knum 2, .obj [(.kstr "y", p2y)])]),
    (.kstr "ball", .obj [(.kstr "x", bx), (.kstr "y", bY)]),
    (.kstr "score", .obj [(.knum 1, s1), (.knum 2, s2)]),
    (.kstr "bounds", .obj [(.kstr "width", bw), (.kstr "height", bh)]),
    (.kstr "paddle", .obj [(.kstr "w", pw), (.kstr "h", ph)]),
    (.kstr "ballRadius", br)])

/-! ### Spec-side description of the normalised state

The spec describes the normalised state per field: each output field equals
the snapshot's corresponding value when that value is present and non-null,
and a fixed default otherwise. The following definitions state that
description independently of the source, for comparison with
`normaliseState`. -/

/-- Builder for the full state shape produced by normalisation, one
argument per leaf field. -/
def mkState (p1y p2y bx bY s1 s2 bw bh pw ph br : JSValue) : JSValue :=
  .obj [
    (.kstr "players", .obj [
      (.knum 1, .obj [(.kstr "y", p1y)]),
      (.knum 2, .obj [(.kstr "y", p2y)])]),
    (.kstr "ball", .obj [(.kstr "x", bx), (.kstr "y", bY)]),
    (.kstr "score", .obj [(.knum 1, s1), (.knum 2, s2)]),
    (.kstr "bounds", .obj [(.kstr "width", bw), (.kstr "height", bh)]),
    (.kstr "paddle", .obj [(.kstr "w", pw), (.kstr "h", ph)]),
    (.kstr "ballRadius", br)]

/-- The snapshot's value at a depth-two path, read tolerantly. -/
def snapshotField2 (x : JSValue) (k1 k2 : String) : JSValue :=
  jsOptChain (jsOptChain x k1) k2

/-- The snapshot's value at a depth-three path, read tolerantly. -/
def snapshotField3 (x : JSValue) (k1 k2 k3 : String) : JSValue :=
  jsOptChain (jsOptChain (jsOptChain x k1) k2) k3

/-- Per-field filling: the snapshot's value when present and non-null, the
default otherwise. -/
def fillField (v d : JSValue) : JSValue :=
  if isLooseNull v then d else v

/-- The spec's per-field description of the normalised snapshot: every field
is the snapshot's value when present and non-null, else that field's fixed
default. -/
def normalisedResolved (x : JSValue) : JSValue :=
  mkState
    (fillField (snapshotField3 x "players" "1" "y") (.num 210))
    (fillField (snapshotField3 x "players" "2" "y") (.num 210))
    (fillField (snapshotField2 x "ball" "x") (.num 400))
    (fillField (snapshotField2 x "ball" "y") (.num 250))
    (fillField (snapshotField2 x "score" "1") (.num 0))
    (fillField (snapshotField2 x "score" "2") (.num 0))
    (fillField (snapshotField2 x "bounds" "width") (.num 800))
    (fillField (snapshotField2 x "bounds" "height") (.num 500))
    (fillField (snapshotField2 x "paddle" "w") (.num 12))
    (fillField (snapshotField2 x "paddle" "h") (.num 80))
    (fillField (jsOptChain x "ballRadius") (.num 8))

/-- Every field of the full state shape is present and non-nullish:
players 1 and 2 with a `y`, ball `x`/`y`, score 1 and 2, bounds
`width`/`height`, paddle `w`/`h`, and `ballRadius`. -/
def isFullyResolved (st : JSValue) : Bool :=
  !isLooseNull (snapshotField3 st "players" "1" "y") &&
  !isLooseNull (snapshotField3 st "players" "2" "y") &&
  !isLooseNull (snapshotField2 st "ball" "x") &&
  !isLooseNull (snapshotField2 st "ball" "y") &&
  !isLooseNull (snapshotField2 st "score" "1") &&
  !isLooseNull (snapshotField2 st "score" "2") &&
  !isLooseNull (snapshotField2 st "bounds" "width") &&
  !isLooseNull (snapshotField2 st "bounds" "height") &&
  !isLooseNull (snapshotField2 st "paddle" "w") &&
  !isLooseNull (snapshotField2 st "paddle" "h") &&
  !isLooseNull (jsOptChain st "ballRadius")

/-! ### Numeric-versus-string key representation -/

/-- Rewrites a numeric key into the string key that denotes the same
property. -/
def stringifyKey : JSKey → JSKey
  | .knum n => .kstr (toString n)
  | k => k

/-- Rewrites every top-level key of an object value into string form; other
values are untouched. -/
def stringifyObjKeys : JSValue → JSValue
  | .obj fs => .obj (fs.map (fun kv => (stringifyKey kv.1, kv.2)))
  | v => v

/-- Applied to a top-level snapshot entry: the values of the `players` and
`score` fields get their keys stringified, all other entries are kept
as-is. -/
def stringifySeatEntry (kv : JSKey × JSValue) : JSKey × JSValue :=
  if kv.1.propString = "players" ∨ kv.1.propString = "score" then
    (kv.1, stringifyObjKeys kv.2)
  else kv

/-- The string-keyed twin of a snapshot: identical except that the keys of
its `players` and `score` objects are in string form. -/
def stringifySeatKeys : JSValue → JSValue
  | .obj fs => .obj (fs.map stringifySeatEntry)
  | v => v

/-! ### Client event model

The stateful part of the client (App.jsx lines 61-212): the WebSocket
message listener, the 30 Hz input timer, the keyboard handler and the
resend-on-assign effect. React refs and state hooks become fields of
`ClientState`; each event handler becomes a function from the state to the
new state plus the list of WebSocket messages sent during the event. -/

/-- `const INPUT_INTERVAL = 1000 / 30;`, App.jsx line 3 (milliseconds). -/
def INPUT_INTERVAL : Rat := 1000 / 30

/-- A paddle-movement direction, the `'up'` / `'down'` values stored in
`keyMap`. -/
inductive Dir where
  | up : Dir
  | down : Dir
deriving DecidableEq, Repr

/-- `const keyMap = ...`, App.jsx lines 61-68; `undefined` for an unmapped
code becomes `none` (both are falsy / guard the early return). -/
def keyMap : String → Option Dir
  | "KeyW" => some .up
  | "KeyS" => some .down
  | "ArrowUp" => some .up
  | "ArrowDown" => some .down
  | "KeyA" => some .up
  | "KeyD" => some .down
  | _ => none

/-- An `{up, down}` intent vector (`keysRef` / `inputRef` contents). -/
structure Intent where
  up : Bool
  down : Bool
deriving DecidableEq, Repr

/-- Dynamic property read `current[action]` for `action` in
`{'up', 'down'}`. -/
def Intent.get (i : Intent) : Dir → Bool
  | .up => i.up
  | .down => i.down

/-- Spread-with-override `{ ...current, [action]: isDown }`. -/
def Intent.set (i : Intent) : Dir → Bool → Intent
  | .up, b => { i with up := b }
  | .down, b => { i with down := b }

/-- The client's mutable pieces: `assignedPlayer` and `state` (React state
hooks), whether the socket is non-null and open (the
`wsRef.current && wsRef.current.readyState === WebSocket.OPEN` check),
`keysRef` and `inputRef`. -/
structure ClientState where
  assignedPlayer : JSValue
  renderState : JSValue
  wsOpen : Bool
  keys : Intent
  input : Intent

/-- Hook initial values: `useState(null)`, `useState(defaultState)`, socket
not yet open, `{ up: false, down: false }` for both refs. -/
def initialClientState : ClientState :=
  { assignedPlayer := .null
    renderState := defaultState
    wsOpen := false
    keys := { up := false, down := false }
    input := { up := false, down := false } }

/-- A client state whose socket is connected and open, for concrete
instantiations. -/
def openClient : ClientState :=
  { initialClientState with wsOpen := true }

/-- The JSON payload `{ type: 'input', up, down }` built at both send
sites (App.jsx lines 112-116 and 127-131). -/
def inputMessage (up down : Bool) : JSValue :=
  .obj [(.kstr "type", .str "input"), (.kstr "up", .bool up), (.kstr "down", .bool down)]

/-- `updateInput`, App.jsx lines 123-134: stores the new intent in
`inputRef` and, when the socket is open, sends it immediately. -/
def updateInput (st : ClientState) (up down : Bool) : ClientState × List JSValue :=
  let st' := { st with input := { up := up, down := down } }
  if st.wsOpen then (st', [inputMessage up down]) else (st', [])

/-- One firing of the `setInterval(..., INPUT_INTERVAL)` callback, App.jsx
lines 107-118: sends the current intent when the socket is open, otherwise
returns early. The state is untouched. -/
def timerTick (st : ClientState) : List JSValue :=
  if st.wsOpen then [inputMessage st.input.up st.input.down] else []

/-- `handleKey`, App.jsx lines 149-160: ignore unmapped codes, ignore
events that do not change the mapped direction's value, otherwise store the
new vector in `keysRef` and call `updateInput` with it. -/
def handleKey (st : ClientState) (code : String) (isDown : Bool) : ClientState × List JSValue :=
  match keyMap code with
  | none => (st, [])
  | some action =>
    let current := st.keys
    if current.get action = isDown then (st, [])
    else
      let next := current.set action isDown
      let st' := { st with keys := next }
      updateInput st' next.up next.down

/-- Strict equality `v === s` against a string literal. -/
def jsStrictEqStr : JSValue → String → Bool
  | .str a, b => a == b
  | _, _ => false

/-- Strict equality `v === null` (false for `undefined`). -/
def jsIsNull : JSValue → Bool
  | .null => true
  | _ => false

/-- Strict equality `v === n` against a numeric literal. -/
def jsStrictEqNum : JSValue → Rat → Bool
  | .num a, q => a == q
  | _, _ => false

/-- The WebSocket message listener, App.jsx lines 86-93, applied to the
already-parsed message value: an `assign` message stores
`data.player === null ? 'spectator' : data.player`, a `state` message
stores the normalised snapshot, anything else falls through. `data.type`
is a naked member access, so a nullish `data` throws. -/
def onMessage (st : ClientState) (data : JSValue) : Except Unit ClientState := do
  let t ← jsGetProp data "type"
  if jsStrictEqStr t "assign" then
    let p ← jsGetProp data "player"
    pure { st with assignedPlayer := if jsIsNull p then .str "spectator" else p }
  else if jsStrictEqStr t "state" then
    let ns ← normaliseState data
    pure { st with renderState := ns }
  else
    pure st

/-- `Object.is`, the comparison React applies to the `[assignedPlayer]`
dependency of the resend effect. Primitives compare structurally; an object
stored from one message is never reference-identical to a value from a
later parse, so object comparisons are `false`. -/
def objectIs : JSValue → JSValue → Bool
  | .null, .null => true
  | .undefined, .undefined => true
  | .num a, .num b => a == b
  | .str a, .str b => a == b
  | .bool a, .bool b => a == b
  | _, _ => false

/-- One message delivery followed by React's effect pass: the listener runs
(App.jsx lines 86-93), and when the stored `assignedPlayer` changed, the
`useEffect` of lines 174-176 runs `resendCurrentInput`, which is
`updateInput(inputRef.current.up, inputRef.current.down)` (lines
136-138). -/
def processClientMessage (st : ClientState) (data : JSValue) :
    Except Unit (ClientState × List JSValue) := do
  let st' ← onMessage st data
  if objectIs st'.assignedPlayer st.assignedPlayer then
    pure (st', [])
  else
    pure (updateInput st' st'.input.up st'.input.down)

/-- The wire form `{"type": "assign", "player": p}` of a seat-assignment
message, used as concrete listener input. -/
def assignMessage (p : JSValue) : JSValue :=
  .obj [(.kstr "type", .str "assign"), (.kstr "player", p)]

/-- Template-literal conversion of the interpolated value; in `roleLabel`
it is only reached with the numbers `1` and `2`. -/
def jsDisplay : JSValue → String
  | .num q => if q.den = 1 then toString q.num else toString q
  | .str s => s
  | .bool b => if b then "true" else "false"
  | .null => "null"
  | .undefined => "undefined"
  | .obj _ => "[object Object]"

/-- `roleLabel`, App.jsx lines 204-212. -/
def roleLabel (assignedPlayer : JSValue) : String :=
  if jsStrictEqNum assignedPlayer 1 || jsStrictEqNum assignedPlayer 2 then
    "Connected as Player " ++ jsDisplay assignedPlayer
  else if jsIsNull assignedPlayer then
    "Connecting..."
  else
    "Spectator"

/-! ### Basic lemmas about the embedded JavaScript operators -/

theorem ok_bind {α β : Type} (a : α) (f : α → Except Unit β) :
    (Except.ok a >>= f) = f a := rfl

theorem pure_ok {α : Type} (a : α) : (pure a : Except Unit α) = .ok a := rfl

theorem isLooseNull_nullishObj (a : JSValue) (fs : List (JSKey × JSValue)) :
    isLooseNull (jsNullish a (.obj fs)) = false := by
  unfold jsNullish
  split
  · rfl
  · next h => simpa using h

theorem jsGetProp_of_notNull {v : JSValue} (h : isLooseNull v = false) (k : String) :
    jsGetProp v k = .ok (jsOptChain v k) := by
  cases v <;> simp_all [isLooseNull, jsGetProp, jsOptChain]

theorem isLooseNull_of_chain {v : JSValue} {k : String}
    (h : isLooseNull (jsOptChain v k) = false) : isLooseNull v = false := by
  cases v <;> simp_all [isLooseNull, jsOptChain]

theorem jsOptChain_nullishNilObj (a : JSValue) (k : String) :
    jsOptChain (jsNullish a (.obj [])) k = jsOptChain a k := by
  cases a <;> simp [jsNullish, isLooseNull, jsOptChain, lookupKey]

theorem fillField_of_notNull {v : JSValue} (h : isLooseNull v = false) (d : JSValue) :
    fillField v d = v := by simp [fillField, h]

theorem fillField_of_null {v : JSValue} (h : isLooseNull v = true) (d : JSValue) :
    fillField v d = d := by simp [fillField, h]

theorem isLooseNull_fillField_num (v : JSValue) (q : Rat) :
    isLooseNull (fillField v (.num q)) = false := by
  unfold fillField
  split
  · rfl
  · next h => simpa using h

/-! ### The resolver helpers of `normaliseState`, characterised -/

theorem resolvePlayerY_one {players : JSValue} (h : isLooseNull players = false) :
    resolvePlayerY players 1 =
      .ok (fillField (jsOptChain (jsOptChain players "1") "y") (.num ((500 - 80) / 2))) := by
  have h1 : toString (1 : Int) = "1" := rfl
  cases hveq : isLooseNull (jsOptChain (jsOptChain players "1") "y") with
  | false =>
      have hpk : isLooseNull (jsOptChain players "1") = false := isLooseNull_of_chain hveq
      simp [resolvePlayerY, h1, jsGetProp_of_notNull h, jsGetProp_of_notNull hpk, hveq,
        ok_bind, fillField_of_notNull hveq]
  | true =>
      rw [fillField_of_null hveq]
      simp [resolvePlayerY, h1, jsGetProp_of_notNull h, hveq, ok_bind]
      rfl

theorem resolvePlayerY_two {players : JSValue} (h : isLooseNull players = false) :
    resolvePlayerY players 2 =
      .ok (fillField (jsOptChain (jsOptChain players "2") "y") (.num ((500 - 80) / 2))) := by
  have h2 : toString (2 : Int) = "2" := rfl
  cases hveq : isLooseNull (jsOptChain (jsOptChain players "2") "y") with
  | false =>
      have hpk : isLooseNull (jsOptChain players "2") = false := isLooseNull_of_chain hveq
      simp [resolvePlayerY, h2, jsGetProp_of_notNull h, jsGetProp_of_notNull hpk, hveq,
        ok_bind, fillField_of_notNull hveq]
  | true =>
      rw [fillField_of_null hveq]
      simp [resolvePlayerY, h2, jsGetProp_of_notNull h, hveq, ok_bind]
      rfl

theorem resolveScore_one {score : JSValue} (h : isLooseNull score = false) :
    resolveScore score 1 = .ok (fillField (jsOptChain score "1") (.num 0)) := by
  have h1 : toString (1 : Int) = "1" := rfl
  cases hveq : isLooseNull (jsOptChain score "1") with
  | false =>
      simp [resolveScore, h1, jsGetProp_of_notNull h, hveq, ok_bind, pure_ok,
        fillField_of_notNull hveq]
  | true =>
      rw [fillField_of_null hveq]
      simp [resolveScore, h1, jsGetProp_of_notNull h, hveq, ok_bind, pure_ok]
      rfl

theorem resolveScore_two {score : JSValue} (h : isLooseNull score = false) :
    resolveScore score 2 = .ok (fillField (jsOptChain score "2") (.num 0)) := by
  have h2 : toString (2 : Int) = "2" := rfl
  cases hveq : isLooseNull (jsOptChain score "2") with
  | false =>
      simp [resolveScore, h2, jsGetProp_of_notNull h, hveq, ok_bind, pure_ok,
        fillField_of_notNull hveq]
  | true =>
      rw [fillField_of_null hveq]
      simp [resolveScore, h2, jsGetProp_of_notNull h, hveq, ok_bind, pure_ok]
      rfl

/-! Concrete accesses into `defaultState`, evaluated. -/

theorem defaultBall_eq : jsGetProp defaultState "ball" =
    .ok (.obj [(.kstr "x", .num (800 / 2)), (.kstr "y", .num (500 / 2))]) := rfl

theorem defaultBall_x :
    jsGetProp (JSValue.obj [(.kstr "x", .num (800 / 2)), (.kstr "y", .num (500 / 2))]) "x" =
      .ok (.num (800 / 2)) := rfl

theorem defaultBall_y :
    jsGetProp (JSValue.obj [(.kstr "x", .num (800 / 2)), (.kstr "y", .num (500 / 2))]) "y" =
      .ok (.num (500 / 2)) := rfl

theorem defaultBounds_eq : jsGetProp defaultState "bounds" =
    .ok (.obj [(.kstr "width", .num 800), (.kstr "height", .num 500)]) := rfl

theorem defaultBounds_w :
    jsGetProp (JSValue.obj [(.kstr "width", .num 800), (.kstr "height", .num 500)]) "width" =
      .ok (.num 800) := rfl

theorem defaultBounds_h :
    jsGetProp (JSValue.obj [(.kstr "width", .num 800), (.kstr "height", .num 500)]) "height" =
      .ok (.num 500) := rfl

theorem defaultPaddle_eq : jsGetProp defaultState "paddle" =
    .ok (.obj [(.kstr "w", .num 12), (.kstr "h", .num 80)]) := rfl

theorem defaultPaddle_w :
    jsGetProp (JSValue.obj [(.kstr "w", .num 12), (.kstr "h", .num 80)]) "w" =
      .ok (.num 12) := rfl

theorem defaultPaddle_h :
    jsGetProp (JSValue.obj [(.kstr "w", .num 12), (.kstr "h", .num 80)]) "h" =
      .ok (.num 80) := rfl

theorem defaultRadius_eq : jsGetProp defaultState "ballRadius" = .ok (.num 8) := rfl

/-- The central characterisation: `normaliseState` never throws, and its
result is exactly the spec's per-field resolution of the snapshot. -/
theorem normaliseState_resolved (x : JSValue) :
    normaliseState x = .ok (normalisedResolved x) := by
  have hsrc : isLooseNull (jsNullish x (.obj [])) = false := isLooseNull_nullishObj x []
  have hpl : isLooseNull (jsNullish (jsOptChain x "players") (.obj [])) = false :=
    isLooseNull_nullishObj _ []
  have hsc : isLooseNull (jsNullish (jsOptChain x "score") (.obj [])) = false :=
    isLooseNull_nullishObj _ []
  have e1 : ((500 - 80 : Rat) / 2) = 210 := by norm_num
  have e2 : ((800 : Rat) / 2) = 400 := by norm_num
  have e3 : ((500 : Rat) / 2) = 250 := by norm_num
  simp only [normaliseState, jsGetProp_of_notNull hsrc, ok_bind, jsOptChain_nullishNilObj,
    resolvePlayerY_one hpl, resolvePlayerY_two hpl, resolveScore_one hsc, resolveScore_two hsc,
    defaultBall_eq, defaultBall_x, defaultBall_y, defaultBounds_eq, defaultBounds_w,
    defaultBounds_h, defaultPaddle_eq, defaultPaddle_w, defaultPaddle_h, defaultRadius_eq,
    pure_ok]
  simp only [normalisedResolved, mkState, snapshotField2, snapshotField3, fillField,
    jsNullish, e1, e2, e3]

/-! ### Projections out of the full state shape -/

theorem mkState_p1 (v1 v2 v3 v4 v5 v6 v7 v8 v9 v10 v11 : JSValue) :
    snapshotField3 (mkState v1 v2 v3 v4 v5 v6 v7 v8 v9 v10 v11) "players" "1" "y" = v1 := rfl

theorem mkState_p2 (v1 v2 v3 v4 v5 v6 v7 v8 v9 v10 v11 : JSValue) :
    snapshotField3 (mkState v1 v2 v3 v4 v5 v6 v7 v8 v9 v10 v11) "players" "2" "y" = v2 := rfl

theorem mkState_bx (v1 v2 v3 v4 v5 v6 v7 v8 v9 v10 v11 : JSValue) :
    snapshotField2 (mkState v1 v2 v3 v4 v5 v6 v7 v8 v9 v10 v11) "ball" "x" = v3 := rfl

theorem mkState_by (v1 v2 v3 v4 v5 v6 v7 v8 v9 v10 v11 : JSValue) :
    snapshotField2 (mkState v1 v2 v3 v4 v5 v6 v7 v8 v9 v10 v11) "ball" "y" = v4 := rfl

theorem mkState_s1 (v1 v2 v3 v4 v5 v6 v7 v8 v9 v10 v11 : JSValue) :
    snapshotField2 (mkState v1 v2 v3 v4 v5 v6 v7 v8 v9 v10 v11) "score" "1" = v5 := rfl

theorem mkState_s2 (v1 v2 v3 v4 v5 v6 v7 v8 v9 v10 v11 : JSValue) :
    snapshotField2 (mkState v1 v2 v3 v4 v5 v6 v7 v8 v9 v10 v11) "score" "2" = v6 := rfl

theorem mkState_bw (v1 v2 v3 v4 v5 v6 v7 v8 v9 v10 v11 : JSValue) :
    snapshotField2 (mkState v1 v2 v3 v4 v5 v6 v7 v8 v9 v10 v11) "bounds" "width" = v7 := rfl

theorem mkState_bh (v1 v2 v3 v4 v5 v6 v7 v8 v9 v10 v11 : JSValue) :
    snapshotField2 (mkState v1 v2 v3 v4 v5 v6 v7 v8 v9 v10 v11) "bounds" "height" = v8 := rfl

theorem mkState_pw (v1 v2 v3 v4 v5 v6 v7 v8 v9 v10 v11 : JSValue) :
    snapshotField2 (mkState v1 v2 v3 v4 v5 v6 v7 v8 v9 v10 v11) "paddle" "w" = v9 := rfl

theorem mkState_ph (v1 v2 v3 v4 v5 v6 v7 v8 v9 v10 v11 : JSValue) :
    snapshotField2 (mkState v1 v2 v3 v4 v5 v6 v7 v8 v9 v10 v11) "paddle" "h" = v10 := rfl

theorem mkState_br (v1 v2 v3 v4 v5 v6 v7 v8 v9 v10 v11 : JSValue) :
    jsOptChain (mkState v1 v2 v3 v4 v5 v6 v7 v8 v9 v10 v11) "ballRadius" = v11 := rfl

/-- A fully non-nullish state shape is a fixed point of the per-field
resolution. -/
theorem normalisedResolved_of_resolved (v1 v2 v3 v4 v5 v6 v7 v8 v9 v10 v11 : JSValue)
    (h1 : isLooseNull v1 = false) (h2 : isLooseNull v2 = false)
    (h3 : isLooseNull v3 = false) (h4 : isLooseNull v4 = false)
    (h5 : isLooseNull v5 = false) (h6 : isLooseNull v6 = false)
    (h7 : isLooseNull v7 = false) (h8 : isLooseNull v8 = false)
    (h9 : isLooseNull v9 = false) (h10 : isLooseNull v10 = false)
    (h11 : isLooseNull v11 = false) :
    normalisedResolved (mkState v1 v2 v3 v4 v5 v6 v7 v8 v9 v10 v11) =
      mkState v1 v2 v3 v4 v5 v6 v7 v8 v9 v10 v11 := by
  simp only [normalisedResolved, mkState_p1, mkState_p2, mkState_bx, mkState_by, mkState_s1,
    mkState_s2, mkState_bw, mkState_bh, mkState_pw, mkState_ph, mkState_br,
    fillField_of_notNull h1, fillField_of_notNull h2, fillField_of_notNull h3,
    fillField_of_notNull h4, fillField_of_notNull h5, fillField_of_notNull h6,
    fillField_of_notNull h7, fillField_of_notNull h8, fillField_of_notNull h9,
    fillField_of_notNull h10, fillField_of_notNull h11]

theorem normalisedResolved_idem (x : JSValue) :
    normalisedResolved (normalisedResolved x) = normalisedResolved x :=
  normalisedResolved_of_resolved _ _ _ _ _ _ _ _ _ _ _
    (isLooseNull_fillField_num _ _) (isLooseNull_fillField_num _ _)
    (isLooseNull_fillField_num _ _) (isLooseNull_fillField_num _ _)
    (isLooseNull_fillField_num _ _) (isLooseNull_fillField_num _ _)
    (isLooseNull_fillField_num _ _) (isLooseNull_fillField_num _ _)
    (isLooseNull_fillField_num _ _) (isLooseNull_fillField_num _ _)
    (isLooseNull_fillField_num _ _)

theorem isFullyResolved_normalisedResolved (x : JSValue) :
    isFullyResolved (normalisedResolved x) = true := by
  simp only [isFullyResolved, normalisedResolved, mkState_p1, mkState_p2, mkState_bx,
    mkState_by, mkState_s1, mkState_s2, mkState_bw, mkState_bh, mkState_pw, mkState_ph,
    mkState_br, isLooseNull_fillField_num, Bool.not_false, Bool.and_self]

/-! ### Key representation does not matter -/

theorem stringifyKey_propString (k : JSKey) : (stringifyKey k).propString = k.propString := by
  cases k <;> rfl

theorem stringifySeatEntry_key (kv : JSKey × JSValue) : (stringifySeatEntry kv).1 = kv.1 := by
  unfold stringifySeatEntry
  split <;> rfl

theorem foldl_lookup_stringifyObj (k : String) (fs : List (JSKey × JSValue)) :
    ∀ acc : JSValue,
      (fs.map (fun kv => (stringifyKey kv.1, kv.2))).foldl
          (fun a kv => if kv.1.propString = k then kv.2 else a) acc =
        fs.foldl (fun a kv => if kv.1.propString = k then kv.2 else a) acc := by
  induction fs with
  | nil => intro acc; rfl
  | cons kv rest ih =>
      intro acc
      simp only [List.map_cons, List.foldl_cons, stringifyKey_propString]
      exact ih _

theorem jsOptChain_stringifyObjKeys (v : JSValue) (k : String) :
    jsOptChain (stringifyObjKeys v) k = jsOptChain v k := by
  cases v <;>
    simp [stringifyObjKeys, jsOptChain, lookupKey, foldl_lookup_stringifyObj]

theorem lookupKey_seatMap_target (k : String) (hk : k = "players" ∨ k = "score")
    (fs : List (JSKey × JSValue)) :
    ∀ acc : JSValue,
      (fs.map stringifySeatEntry).foldl (fun a kv => if kv.1.propString = k then kv.2 else a)
          (stringifyObjKeys acc) =
        stringifyObjKeys (fs.foldl (fun a kv => if kv.1.propString = k then kv.2 else a) acc) := by
  induction fs with
  | nil => intro acc; rfl
  | cons kv rest ih =>
      intro acc
      simp only [List.map_cons, List.foldl_cons]
      by_cases hm : kv.1.propString = k
      · have hTarget : kv.1.propString = "players" ∨ kv.1.propString = "score" := by
          rcases hk with h | h
          · exact Or.inl (by rw [hm, h])
          · exact Or.inr (by rw [hm, h])
        have hEntry : stringifySeatEntry kv = (kv.1, stringifyObjKeys kv.2) := by
          unfold stringifySeatEntry
          exact if_pos hTarget
        rw [hEntry]
        simp only [hm, if_pos rfl]
        exact ih kv.2
      · have hkey : (stringifySeatEntry kv).1 = kv.1 := stringifySeatEntry_key kv
        rw [if_neg (by rw [hkey]; exact hm), if_neg hm]
        exact ih acc

theorem lookupKey_seatMap_other (k : String) (hp : ¬ k = "players") (hs : ¬ k = "score")
    (fs : List (JSKey × JSValue)) :
    ∀ acc : JSValue,
      (fs.map stringifySeatEntry).foldl (fun a kv => if kv.1.propString = k then kv.2 else a)
          acc =
        fs.foldl (fun a kv => if kv.1.propString = k then kv.2 else a) acc := by
  induction fs with
  | nil => intro acc; rfl
  | cons kv rest ih =>
      intro acc
      simp only [List.map_cons, List.foldl_cons]
      by_cases hm : kv.1.propString = k
      · have hNotTarget : ¬ (kv.1.propString = "players" ∨ kv.1.propString = "score") := by
          rintro (h | h)
          · exact hp (hm.symm.trans h)
          · exact hs (hm.symm.trans h)
        have hEntry : stringifySeatEntry kv = kv := by
          unfold stringifySeatEntry
          exact if_neg hNotTarget
        rw [hEntry]
        exact ih _
      · have hkey : (stringifySeatEntry kv).1 = kv.1 := stringifySeatEntry_key kv
        rw [if_neg (by rw [hkey]; exact hm), if_neg hm]
        exact ih acc

theorem jsOptChain_seatKeys_target (x : JSValue) {k : String}
    (hk : k = "players" ∨ k = "score") :
    jsOptChain (stringifySeatKeys x) k = stringifyObjKeys (jsOptChain x k) := by
  cases x <;> simp [stringifySeatKeys, jsOptChain, stringifyObjKeys]
  case obj fs =>
    have h := lookupKey_seatMap_target k hk fs .undefined
    simpa [lookupKey, stringifyObjKeys] using h

theorem jsOptChain_seatKeys_other (x : JSValue) {k : String}
    (hp : ¬ k = "players") (hs : ¬ k = "score") :
    jsOptChain (stringifySeatKeys x) k = jsOptChain x k := by
  cases x <;> simp [stringifySeatKeys, jsOptChain]
  case obj fs =>
    have h := lookupKey_seatMap_other k hp hs fs .undefined
    simpa [lookupKey] using h

/-- The per-field resolution cannot tell a snapshot from its string-keyed
twin. -/
theorem normalisedResolved_stringifySeatKeys (x : JSValue) :
    normalisedResolved (stringifySeatKeys x) = normalisedResolved x := by
  have hpl := jsOptChain_seatKeys_target x (k := "players") (Or.inl rfl)
  have hsc := jsOptChain_seatKeys_target x (k := "score") (Or.inr rfl)
  have hba := jsOptChain_seatKeys_other x (k := "ball") (by decide) (by decide)
  have hbo := jsOptChain_seatKeys_other x (k := "bounds") (by decide) (by decide)
  have hpa := jsOptChain_seatKeys_other x (k := "paddle") (by decide) (by decide)
  have hbr := jsOptChain_seatKeys_other x (k := "ballRadius") (by decide) (by decide)
  simp only [normalisedResolved, snapshotField3, snapshotField2, hpl, hsc, hba, hbo, hpa,
    hbr, jsOptChain_stringifyObjKeys]

theorem Intent.get_set (i : Intent) (a : Dir) (b : Bool) : (i.set a b).get a = b := by
  cases a <;> rfl

/-! ### The claims -/

/-- C1: client state normalisation is idempotent — running `normaliseState`
on its own output returns that output unchanged, for every input — and the
empty snapshot `{}` normalises exactly to `defaultState`. -/
theorem normaliseState_idempotent_and_default :
    (∀ x : JSValue, (normaliseState x).bind normaliseState = normaliseState x) ∧
    normaliseState (.obj []) = .ok defaultState := by
  constructor
  · intro x
    rw [normaliseState_resolved x]
    show normaliseState (normalisedResolved x) = _
    rw [normaliseState_resolved, normalisedResolved_idem]
  · rfl

/-- C2: `normaliseState` is total — on every input value (nullish values,
non-objects, and objects with missing, null or ill-shaped sub-fields
included) it returns a state without throwing, and that state has every
field of the full shape resolved: players 1 and 2 with a `y`, ball
`x`/`y`, score 1 and 2, bounds `width`/`height`, paddle `w`/`h`, and
`ballRadius`. -/
theorem normaliseState_total :
    ∀ x : JSValue, ∃ st : JSValue, normaliseState x = .ok st ∧ isFullyResolved st = true :=
  fun x => ⟨normalisedResolved x, normaliseState_resolved x, isFullyResolved_normalisedResolved x⟩

/-- C3: a snapshot and its string-keyed twin — the same snapshot with the
keys of its `players` and `score` objects written as strings instead of
numbers — normalise to identical output, so both key representations are
accepted. -/
theorem normaliseState_key_representation :
    ∀ x : JSValue, normaliseState (stringifySeatKeys x) = normaliseState x := by
  intro x
  rw [normaliseState_resolved, normaliseState_resolved, normalisedResolved_stringifySeatKeys]

/-- C4: per-field filling — the normalised state is, independently for each
of the eleven fields, the snapshot's value at that field when present and
non-null, and that field's fixed default when absent or null. -/
theorem normaliseState_per_field (x : JSValue) :
    normaliseState x = .ok (mkState
      (fillField (snapshotField3 x "players" "1" "y") (.num 210))
      (fillField (snapshotField3 x "players" "2" "y") (.num 210))
      (fillField (snapshotField2 x "ball" "x") (.num 400))
      (fillField (snapshotField2 x "ball" "y") (.num 250))
      (fillField (snapshotField2 x "score" "1") (.num 0))
      (fillField (snapshotField2 x "score" "2") (.num 0))
      (fillField (snapshotField2 x "bounds" "width") (.num 800))
      (fillField (snapshotField2 x "bounds" "height") (.num 500))
      (fillField (snapshotField2 x "paddle" "w") (.num 12))
      (fillField (snapshotField2 x "paddle" "h") (.num 80))
      (fillField (jsOptChain x "ballRadius") (.num 8))) :=
  normaliseState_resolved x

/-- C5: every input message the client sends carries the full current
intent `{type: "input", up, down}`, never a delta: the timer fires at the
fixed `INPUT_INTERVAL = 1000/30` millisecond cadence and sends the stored
intent exactly when the socket is open; `updateInput` stores the new full
intent and sends exactly it when the socket is open; and a key event that
changes the intent immediately sends the new full intent (when open),
leaving `inputRef` equal to the new key vector. -/
theorem input_send_contract :
    INPUT_INTERVAL = 1000 / 30 ∧
    (∀ st : ClientState,
      timerTick st = if st.wsOpen then [inputMessage st.input.up st.input.down] else []) ∧
    (∀ (st : ClientState) (up down : Bool),
      (updateInput st up down).1.input = { up := up, down := down } ∧
      (updateInput st up down).2 = if st.wsOpen then [inputMessage up down] else []) ∧
    (∀ (st : ClientState) (code : String) (isDown : Bool),
      (handleKey st code isDown).1.keys ≠ st.keys →
        (handleKey st code isDown).1.input = (handleKey st code isDown).1.keys ∧
        (handleKey st code isDown).2 =
          if st.wsOpen then
            [inputMessage (handleKey st code isDown).1.keys.up
              (handleKey st code isDown).1.keys.down]
          else []) := by
  refine ⟨rfl, fun st => rfl, ?_, ?_⟩
  · intro st up down
    constructor <;> (unfold updateInput; split <;> rfl)
  · intro st code isDown
    cases hk : keyMap code with
    | none =>
        intro hne
        exfalso
        apply hne
        simp [handleKey, hk]
    | some a =>
        by_cases hcur : st.keys.get a = isDown
        · intro hne
          exfalso
          apply hne
          simp [handleKey, hk, hcur]
        · intro hne
          by_cases hw : st.wsOpen <;>
            constructor <;> simp [handleKey, hk, hcur, updateInput, hw]

/-- Witness for C5: with the socket open, pressing W changes the intent;
the stored intent equals the new key vector and exactly the new full
intent is sent immediately. -/
theorem input_send_contract_witness :
    (handleKey openClient "KeyW" true).1.input = (handleKey openClient "KeyW" true).1.keys ∧
    (handleKey openClient "KeyW" true).2 =
      if openClient.wsOpen then
        [inputMessage (handleKey openClient "KeyW" true).1.keys.up
          (handleKey openClient "KeyW" true).1.keys.down]
      else [] :=
  input_send_contract.2.2.2 openClient "KeyW" true (by decide)

/-- C6 counterexample: the valid JSON text "null" is a malformed protocol
message (it has no `type`); the listener's naked `data.type` access throws
on it, so handling a malformed message does raise an error, contrary to
the claim. -/
theorem onMessage_null_throws :
    onMessage initialClientState .null = .error () := rfl

/-- C6 amended: every message value that is not nullish and whose `type`
is neither "assign" nor "state" is ignored without failing — the client
state, including the rendered state and the assigned role, is returned
unchanged and no error is raised. (A message that parses to `null` or
`undefined` instead throws from the `data.type` access, still leaving the
state unchanged and the connection open.) -/
theorem onMessage_ignores_unknown (st : ClientState) (data : JSValue)
    (hd : isLooseNull data = false)
    (ha : jsStrictEqStr (jsOptChain data "type") "assign" = false)
    (hs : jsStrictEqStr (jsOptChain data "type") "state" = false) :
    onMessage st data = .ok st := by
  simp [onMessage, jsGetProp_of_notNull hd, ok_bind, ha, hs, pure_ok]

/-- Witness for the amended C6: a message of unknown type "ping" is
ignored and the state returned unchanged. -/
theorem onMessage_ignores_unknown_witness :
    onMessage initialClientState (.obj [(.kstr "type", .str "ping")]) =
      .ok initialClientState :=
  onMessage_ignores_unknown initialClientState (.obj [(.kstr "type", .str "ping")]) rfl rfl rfl

/-- C7 counterexample: for the spectator role the label is "Spectator",
which is not the "Connecting..." indicator, contrary to the claim that a
spectator shows the connecting indicator. -/
theorem roleLabel_spectator_not_connecting :
    roleLabel (.str "spectator") = "Spectator" ∧ "Spectator" ≠ "Connecting..." :=
  ⟨rfl, by decide⟩

/-- C7 amended: only the pre-assignment state (`assignedPlayer` null, as
before any assign message and after a close) shows the "Connecting..."
indicator; a spectator shows "Spectator", and an assigned seat shows
"Connected as Player 1" or "Connected as Player 2". -/
theorem roleLabel_cases :
    roleLabel .null = "Connecting..." ∧
    roleLabel (.str "spectator") = "Spectator" ∧
    roleLabel (.num 1) = "Connected as Player 1" ∧
    roleLabel (.num 2) = "Connected as Player 2" :=
  ⟨rfl, rfl, rfl, rfl⟩

/-- C8: the client's fixed default state has bounds 800×500, paddle 12×80,
ball radius 8, both paddle y-offsets written as (height − paddle.h)/2,
which equals 210, the ball at the bounds center — (width/2, height/2) =
(400, 250) — and score 0 for both seats. -/
theorem defaultState_values :
    snapshotField2 defaultState "bounds" "width" = .num 800 ∧
    snapshotField2 defaultState "bounds" "height" = .num 500 ∧
    snapshotField2 defaultState "paddle" "w" = .num 12 ∧
    snapshotField2 defaultState "paddle" "h" = .num 80 ∧
    jsOptChain defaultState "ballRadius" = .num 8 ∧
    snapshotField3 defaultState "players" "1" "y" = .num ((500 - 80) / 2) ∧
    snapshotField3 defaultState "players" "2" "y" = .num ((500 - 80) / 2) ∧
    ((500 - 80 : Rat) / 2) = 210 ∧
    snapshotField2 defaultState "ball" "x" = .num (800 / 2) ∧
    snapshotField2 defaultState "ball" "y" = .num (500 / 2) ∧
    ((800 : Rat) / 2) = 400 ∧
    ((500 : Rat) / 2) = 250 ∧
    snapshotField2 defaultState "score" "1" = .num 0 ∧
    snapshotField2 defaultState "score" "2" = .num 0 :=
  ⟨rfl, rfl, rfl, rfl, rfl, rfl, rfl, by norm_num, rfl, rfl, by norm_num, by norm_num,
    rfl, rfl⟩

/-- C9: a key event whose code is unmapped, or whose mapped direction
already has the event's value (key auto-repeat), leaves the client state —
in particular the stored intent vectors — unchanged and sends nothing; and
any event that does send something must have changed the key vector. -/
theorem handleKey_ignores_noops :
    (∀ (st : ClientState) (code : String) (isDown : Bool),
      keyMap code = none → handleKey st code isDown = (st, [])) ∧
    (∀ (st : ClientState) (code : String) (isDown : Bool) (action : Dir),
      keyMap code = some action → st.keys.get action = isDown →
        handleKey st code isDown = (st, [])) ∧
    (∀ (st : ClientState) (code : String) (isDown : Bool),
      (handleKey st code isDown).2 ≠ [] → (handleKey st code isDown).1.keys ≠ st.keys) := by
  refine ⟨?_, ?_, ?_⟩
  · intro st code isDown h
    simp [handleKey, h]
  · intro st code isDown action h1 h2
    simp [handleKey, h1, h2]
  · intro st code isDown hsend
    cases hk : keyMap code with
    | none =>
        exfalso
        apply hsend
        simp [handleKey, hk]
    | some a =>
        by_cases hcur : st.keys.get a = isDown
        · exfalso
          apply hsend
          simp [handleKey, hk, hcur]
        · intro heq
          have h1 : (handleKey st code isDown).1.keys = st.keys.set a isDown := by
            by_cases hw : st.wsOpen <;> simp [handleKey, hk, hcur, updateInput, hw]
          rw [h1] at heq
          have h2 : (st.keys.set a isDown).get a = isDown := Intent.get_set st.keys a isDown
          rw [heq] at h2
          exact hcur h2

/-- Witness for C9: an unmapped code ("Space") leaves the state unchanged
and sends nothing. -/
theorem handleKey_ignores_noops_witness :
    handleKey initialClientState "Space" true = (initialClientState, []) :=
  handleKey_ignores_noops.1 initialClientState "Space" true rfl

/-- C10: processing an assign message whose player value is null, 1 or 2,
when the socket is open and the stored role actually changes, stores the
new role (null becomes the spectator role, a seat number is kept) and
immediately resends the current full intent unchanged. -/
theorem resend_on_assign (st : ClientState) (p : JSValue)
    (hp : p = .null ∨ p = .num 1 ∨ p = .num 2)
    (hopen : st.wsOpen = true)
    (hchange : objectIs (if jsIsNull p then .str "spectator" else p) st.assignedPlayer = false) :
    processClientMessage st (assignMessage p) =
      .ok ({ st with assignedPlayer := if jsIsNull p then .str "spectator" else p },
        [inputMessage st.input.up st.input.down]) := by
  have ht : jsGetProp (JSValue.obj [(.kstr "type", .str "assign"), (.kstr "player", p)])
      "type" = .ok (.str "assign") := rfl
  have hpv : jsGetProp (JSValue.obj [(.kstr "type", .str "assign"), (.kstr "player", p)])
      "player" = .ok p := rfl
  simp [processClientMessage, onMessage, assignMessage, ht, hpv, ok_bind, pure_ok,
    jsStrictEqStr, hchange, updateInput, hopen]

/-- Witness for C10: an open, unassigned client receiving `assign player:1`
stores seat 1 and resends its (all-false) intent. -/
theorem resend_on_assign_witness :
    processClientMessage openClient (assignMessage (.num 1)) =
      .ok ({ openClient with
              assignedPlayer := if jsIsNull (.num 1) then .str "spectator" else .num 1 },
        [inputMessage openClient.input.up openClient.input.down]) :=
  resend_on_assign openClient (.num 1) (Or.inr (Or.inl rfl)) rfl rfl
